import Mathlib

/-!
Shallow embedding of the authentication/authorization decision layer of the
`fastapi_example` service, together with the math-operation endpoints it
protects.  Pure Python functions become Lean functions; the per-request
state (`request.state.user_info`) is modelled by passing the produced user
record explicitly; Python exceptions (`HTTPException`, `ValueError`) become
`Except` results.  JWT strings are modelled structurally: a credential
string either parses as a JWT (payload plus signing evidence) or is an
opaque raw string; signature verification succeeds exactly when the
signature was produced with the process secret over the payload as
presented.  Timestamps and time deltas are integers (seconds).  The numeric
endpoint payloads, Python floats in the source, are modelled as rationals:
every concrete value appearing in the claims is exactly representable, and
the control flow under scrutiny (the `b == 0` test) is exact in either
representation.
-/

namespace FastapiExample

/-- The claim set carried inside a signed token, after `create_access_token`
has added the `exp` field: `sub`, `provider` and `roles` are optional dict
entries, `exp` is the absolute expiry timestamp. -/
structure Claims where
  sub : Option String
  exp : Int
  provider : Option String
  roles : Option (List String)
deriving Repr, DecidableEq

/-- The payload handed to `create_access_token` (the `data` dict before the
`exp` entry is added). -/
structure TokenData where
  sub : Option String
  provider : Option String
  roles : Option (List String)
deriving Repr, DecidableEq

/-- A string that parses as a JWT. `claims` is the payload as presented;
`sigKey` is the secret the attached signature was produced with and
`sigClaims` the payload it was produced over, so tampering with the payload
after signing is the case `sigClaims ≠ claims`. -/
structure JwtToken where
  claims : Claims
  sigKey : String
  sigClaims : Claims
deriving Repr, DecidableEq

/-- A bearer credential string: either it parses as a JWT or it is an
opaque string (for instance an API key). -/
inductive Cred where
  | jwt (t : JwtToken)
  | raw (s : String)
deriving Repr, DecidableEq

/-- An `HTTPException` as raised by the auth layer: status code plus detail
message. -/
structure HTTPError where
  status_code : Nat
  detail : String
deriving Repr, DecidableEq

/-- One value of the `api_keys` store: the dict
`\x7b"username": str, "roles": list[str]\x7d`, both entries read with `.get`
and hence possibly absent. -/
structure UserEntry where
  username : Option String
  roles : Option (List String)
deriving Repr, DecidableEq

/-- Python `dict.get`: first (and, for a dict, only) binding of the key in
the association list. -/
def dictGet {α β : Type} [DecidableEq α] : List (α × β) → α → Option β
  | [], _ => none
  | (k, v) :: rest, key => if k = key then some v else dictGet rest key

/-- The slice of `Settings` the auth layer reads: the token-signing secret,
the default token lifetime (minutes) and the credential store. -/
structure Settings where
  oauth_secret_key : String
  oauth_access_token_expire_minutes : Int
  api_keys : List (Cred × UserEntry)
deriving Repr, DecidableEq

/-- `fastapi.security.HTTPAuthorizationCredentials`: the parsed
`Authorization` header. -/
structure HTTPAuthorizationCredentials where
  scheme : String
  credentials : Cred
deriving Repr, DecidableEq

/-- The standardized `user_info` dict attached to the request state.  The
OAuth branch builds `\x7bsub, auth_type, provider\x7d` and the API-key branch
`\x7bsub, auth_type, roles\x7d`, so `provider` and `roles` are optional. -/
structure UserData where
  sub : Option String
  auth_type : String
  provider : Option String
  roles : Option (List String)
deriving Repr, DecidableEq

/-- Python `str.lower` (all scheme strings involved are ASCII). -/
def str_lower (s : String) : String := ⟨s.data.map Char.toLower⟩

/-- Python `datetime.now(timezone.UTC)` exactly as written in the source:
the class `datetime.timezone` has no attribute `UTC` (the working spelling
is `timezone.utc`), so evaluating this expression raises `AttributeError`
unconditionally, before the clock is ever read (quotes of the Python
message omitted). -/
def datetime_now_timezone_UTC : Except String Int :=
  Except.error "AttributeError: type object datetime.timezone has no attribute UTC"

/-- Python `expires_delta or timedelta(minutes=default)`: `or` yields its
right operand when the left is falsy, and both `None` and a zero timedelta
are falsy, so a delta of exactly zero falls back to the default just as an
absent one does.  Deltas are in seconds, the default argument receives
minutes times 60. -/
def timedelta_or_default (expires_delta : Option Int) (defaultDelta : Int) : Int :=
  match expires_delta with
  | none => defaultDelta
  | some d => if d = 0 then defaultDelta else d

/-- `oauth_auth.create_access_token` as staged: copy the data, then compute
`expire = datetime.now(timezone.UTC) + (expires_delta or timedelta(minutes=
settings.oauth_access_token_expire_minutes))`.  The `datetime.now` call
raises `AttributeError` on every invocation, so the function never returns
a token; the remainder (adding `exp`, `jwt.encode` with the process secret)
is modelled as the source writes it but is unreachable. -/
def create_access_token (data : TokenData) (expires_delta : Option Int)
    (settings : Settings) (now : Int) : Except String Cred :=
  match datetime_now_timezone_UTC with
  | Except.error e => Except.error e
  | Except.ok t =>
    let delta := timedelta_or_default expires_delta
      (settings.oauth_access_token_expire_minutes * 60)
    let claims : Claims := ⟨data.sub, t + delta, data.provider, data.roles⟩
    Except.ok (Cred.jwt ⟨claims, settings.oauth_secret_key, claims⟩)

/-- `create_access_token` under the evident intended spelling
`timezone.utc`, which reads the clock instead of crashing.  Kept separate
and used only to exhibit how the repaired issuance would behave — in
particular that a zero `expires_delta` is falsy and silently falls back to
the default lifetime. -/
def create_access_token_utc (data : TokenData) (expires_delta : Option Int)
    (settings : Settings) (now : Int) : Cred :=
  let delta := timedelta_or_default expires_delta
    (settings.oauth_access_token_expire_minutes * 60)
  let claims : Claims := ⟨data.sub, now + delta, data.provider, data.roles⟩
  Cred.jwt ⟨claims, settings.oauth_secret_key, claims⟩

/-- `oauth_auth.verify_access_token`: `jwt.decode` checks the signature
(failure → `InvalidTokenError` → 401 "Invalid token") and then the `exp`
claim (`exp ≤ now` → `ExpiredSignatureError` → 401 "Token has expired");
a string that does not parse as a JWT is likewise an `InvalidTokenError`. -/
def verify_access_token (settings : Settings) (now : Int) : Cred → Except HTTPError Claims
  | Cred.raw _ => Except.error ⟨401, "Invalid token"⟩
  | Cred.jwt t =>
    if t.sigKey = settings.oauth_secret_key ∧ t.sigClaims = t.claims then
      if t.claims.exp ≤ now then Except.error ⟨401, "Token has expired"⟩
      else Except.ok t.claims
    else Except.error ⟨401, "Invalid token"⟩

/-- `oauth_auth.get_current_oauth_user`: 401 when no token, otherwise
verify, then 401 "Invalid token payload" when the payload has no `sub`
(`is None` — the empty string passes), else the standardized OAuth user
record. -/
def get_current_oauth_user (settings : Settings) (now : Int)
    (token : Option Cred) : Except HTTPError UserData :=
  match token with
  | none => Except.error ⟨401, "Not authenticated"⟩
  | some t =>
    match verify_access_token settings now t with
    | Except.error e => Except.error e
    | Except.ok payload =>
      match payload.sub with
      | none => Except.error ⟨401, "Invalid token payload"⟩
      | some user_email =>
        Except.ok ⟨some user_email, "oauth", some (payload.provider.getD "unknown"), none⟩

/-- `unified_auth.authenticate_request`: reject a missing or non-bearer
header; try `verify_access_token` first and, when it succeeds with a truthy
`sub`, return the OAuth record (roles are not copied from the claims);
otherwise (any `HTTPException` from verification, or a falsy `sub`) look
the raw credential up in the API-key store; when both attempts fail,
reject with the fixed generic 401. -/
def authenticate_request (settings : Settings) (now : Int)
    (credentials : Option HTTPAuthorizationCredentials) : Except HTTPError UserData :=
  match credentials with
  | none => Except.error ⟨401, "Invalid or missing Authorization header"⟩
  | some creds =>
    if str_lower creds.scheme ≠ "bearer" then
      Except.error ⟨401, "Invalid or missing Authorization header"⟩
    else
      let token := creds.credentials
      let oauthAttempt : Option UserData :=
        match verify_access_token settings now token with
        | Except.ok payload =>
          match payload.sub with
          | some user_email =>
            if user_email = "" then none
            else some ⟨some user_email, "oauth", some (payload.provider.getD "unknown"), none⟩
          | none => none
        | Except.error _ => none
      match oauthAttempt with
      | some user_data => Except.ok user_data
      | none =>
        match dictGet settings.api_keys token with
        | some user_info =>
          Except.ok ⟨user_info.username, "api_key", none, some (user_info.roles.getD [])⟩
        | none => Except.error ⟨401, "Invalid authentication credentials"⟩

/-- `unified_auth.require_role`'s inner `check_role`: 401 when no user record
is attached; OAuth users pass unconditionally; otherwise, when
`required_roles` is truthy (present and non-empty), require a non-empty
intersection with the user's roles, failing with 403. -/
def check_role (required_roles : Option (List String))
    (user_info : Option UserData) : Except HTTPError Unit :=
  match user_info with
  | none => Except.error ⟨401, "Not authenticated"⟩
  | some u =>
    if u.auth_type = "oauth" then Except.ok ()
    else
      match required_roles with
      | none => Except.ok ()
      | some rs =>
        if rs.isEmpty then Except.ok ()
        else if rs.any (fun role => (u.roles.getD []).contains role) then Except.ok ()
        else Except.error ⟨403, "Insufficient permissions"⟩

/-- `api_key_auth.get_bearer_dependency`'s inner `bearer_auth`: reject a
missing or non-bearer header; look the credential up in the store (401
"Invalid API Key" when absent); when `allowed_roles` is truthy and shares
no role with the entry's roles, 403; otherwise attach and return the
standardized API-key user record. -/
def bearer_auth (api_keys : List (Cred × UserEntry)) (allowed_roles : Option (List String))
    (credentials : Option HTTPAuthorizationCredentials) : Except HTTPError UserData :=
  match credentials with
  | none => Except.error ⟨401, "Invalid or missing Authorization header"⟩
  | some creds =>
    if str_lower creds.scheme ≠ "bearer" then
      Except.error ⟨401, "Invalid or missing Authorization header"⟩
    else
      match dictGet api_keys creds.credentials with
      | none => Except.error ⟨401, "Invalid API Key"⟩
      | some user_info =>
        let roles := user_info.roles.getD []
        let roleCheckFails : Bool :=
          match allowed_roles with
          | none => false
          | some ar => !ar.isEmpty && !(ar.any (fun role => roles.contains role))
        if roleCheckFails then Except.error ⟨403, "User does not have required role"⟩
        else Except.ok ⟨user_info.username, "api_key", none, some roles⟩

/-- Insertion of one binding into a Python dict: replace the value in place
when the key is already bound, append a new binding otherwise. -/
def dictInsert {α β : Type} [DecidableEq α]
    (d : List (α × β)) (k : α) (v : β) : List (α × β) :=
  if d.any (fun p => p.1 = k) then
    d.map (fun p => if p.1 = k then (k, v) else p)
  else d ++ [(k, v)]

/-- `json.loads` on a JSON object, restricted to its treatment of keys: the
members are folded into a dict in document order, a duplicated key silently
keeping only its last value. -/
def json_loads {β : Type} (pairs : List (String × β)) : List (String × β) :=
  pairs.foldl (fun d p => dictInsert d p.1 p.2) []

/-- `Settings.ensure_unique_values`, on the decoded base64 input: parse the
JSON object into a dict, then compare the count of the dict's keys with the
count of distinct keys (`set`) and raise `ValueError` on a mismatch. -/
def ensure_unique_values (raw_api_keys : List (String × UserEntry)) :
    Except String (List (String × UserEntry)) :=
  let decoded := json_loads raw_api_keys
  let secrets := decoded.map Prod.fst
  if secrets.length ≠ secrets.dedup.length then
    Except.error "All Keys in api_keys must be unique"
  else Except.ok decoded

/-- `workers.math_operations.add_numbers`. -/
def add_numbers (a b : ℚ) : ℚ := a + b

/-- `workers.math_operations.subtract_numbers`. -/
def subtract_numbers (a b : ℚ) : ℚ := a - b

/-- `workers.math_operations.multiply_numbers`. -/
def multiply_numbers (a b : ℚ) : ℚ := a * b

/-- `workers.math_operations.divide_numbers`: raises
`ValueError("Cannot divide by zero")` when `b == 0`, else returns `a / b`. -/
def divide_numbers (a b : ℚ) : Except String ℚ :=
  if b = 0 then Except.error "Cannot divide by zero" else Except.ok (a / b)

/-- `models.input.InputData`: the JSON body of the math endpoints. -/
structure InputData where
  A : ℚ
  B : ℚ
deriving Repr, DecidableEq

/-- Response body of the production-router math endpoints. -/
structure MathResponse where
  operation : String
  a : ℚ
  b : ℚ
  result : ℚ
deriving Repr, DecidableEq

/-- Response body of the unified-router math endpoints, which additionally
echo the user and auth type. -/
structure UnifiedMathResponse where
  operation : String
  a : ℚ
  b : ℚ
  result : ℚ
  user : Option String
  auth_type : String
deriving Repr, DecidableEq

/-- `routers.production.divide` handler body (runs after the router's auth
dependency): `divide_numbers`, with `ValueError` caught and re-raised as
`HTTPException(500, str(e))`. -/
def production_divide (user_info : UserData) (input_data : InputData) :
    Except HTTPError MathResponse :=
  match divide_numbers input_data.A input_data.B with
  | Except.error e => Except.error ⟨500, e⟩
  | Except.ok result => Except.ok ⟨"divide", input_data.A, input_data.B, result⟩

/-- `routers.production.add` handler body. -/
def production_add (user_info : UserData) (input_data : InputData) : MathResponse :=
  ⟨"add", input_data.A, input_data.B, add_numbers input_data.A input_data.B⟩

/-- `routers.unified.add` handler body. -/
def unified_add (user_info : UserData) (input_data : InputData) : UnifiedMathResponse :=
  ⟨"add", input_data.A, input_data.B, add_numbers input_data.A input_data.B,
    user_info.sub, user_info.auth_type⟩

/-- `routers.unified.subtract` handler body. -/
def unified_subtract (user_info : UserData) (input_data : InputData) : UnifiedMathResponse :=
  ⟨"subtract", input_data.A, input_data.B, subtract_numbers input_data.A input_data.B,
    user_info.sub, user_info.auth_type⟩

/-- `routers.unified.multiply` handler body. -/
def unified_multiply (user_info : UserData) (input_data : InputData) : UnifiedMathResponse :=
  ⟨"multiply", input_data.A, input_data.B, multiply_numbers input_data.A input_data.B,
    user_info.sub, user_info.auth_type⟩

/-- `routers.unified.divide` handler body: calls `divide_numbers` with no
try/except, so a `ValueError` (the error string) propagates out of the
handler unhandled. -/
def unified_divide (user_info : UserData) (input_data : InputData) :
    Except String UnifiedMathResponse :=
  match divide_numbers input_data.A input_data.B with
  | Except.error e => Except.error e
  | Except.ok result =>
    Except.ok ⟨"divide", input_data.A, input_data.B, result,
      user_info.sub, user_info.auth_type⟩

/-- The production `/fastapi_example/add` endpoint as mounted in `main.py`:
the router-level dependency `auth_admin = get_bearer_dependency(api_keys,
allowed_roles=["admin"])` runs first, then the handler reads the attached
user record. -/
def production_add_endpoint (api_keys : List (Cred × UserEntry)) (now : Int)
    (credentials : Option HTTPAuthorizationCredentials) (input_data : InputData) :
    Except HTTPError MathResponse :=
  match bearer_auth api_keys (some ["admin"]) credentials with
  | Except.error e => Except.error e
  | Except.ok user_data => Except.ok (production_add user_data input_data)

/-- The production `/fastapi_example/divide` endpoint as mounted in
`main.py`, behind `auth_admin`. -/
def production_divide_endpoint (api_keys : List (Cred × UserEntry)) (now : Int)
    (credentials : Option HTTPAuthorizationCredentials) (input_data : InputData) :
    Except HTTPError MathResponse :=
  match bearer_auth api_keys (some ["admin"]) credentials with
  | Except.error e => Except.error e
  | Except.ok user_data => production_divide user_data input_data

/-- The unified `/api/add` endpoint as mounted in `main.py`:
`authenticate_request` is the router's only security dependency, then the
handler runs. -/
def unified_add_endpoint (settings : Settings) (now : Int)
    (credentials : Option HTTPAuthorizationCredentials) (input_data : InputData) :
    Except HTTPError UnifiedMathResponse :=
  match authenticate_request settings now credentials with
  | Except.error e => Except.error e
  | Except.ok user_data => Except.ok (unified_add user_data input_data)

/-- The unified `/api/subtract` endpoint as mounted in `main.py`. -/
def unified_subtract_endpoint (settings : Settings) (now : Int)
    (credentials : Option HTTPAuthorizationCredentials) (input_data : InputData) :
    Except HTTPError UnifiedMathResponse :=
  match authenticate_request settings now credentials with
  | Except.error e => Except.error e
  | Except.ok user_data => Except.ok (unified_subtract user_data input_data)

/-- The unified `/api/multiply` endpoint as mounted in `main.py`. -/
def unified_multiply_endpoint (settings : Settings) (now : Int)
    (credentials : Option HTTPAuthorizationCredentials) (input_data : InputData) :
    Except HTTPError UnifiedMathResponse :=
  match authenticate_request settings now credentials with
  | Except.error e => Except.error e
  | Except.ok user_data => Except.ok (unified_multiply user_data input_data)

/-- The unified `/api/divide` endpoint as mounted in `main.py`: the outer
`Except` is the auth dependency, the inner one the handler's uncaught
`ValueError`. -/
def unified_divide_endpoint (settings : Settings) (now : Int)
    (credentials : Option HTTPAuthorizationCredentials) (input_data : InputData) :
    Except HTTPError (Except String UnifiedMathResponse) :=
  match authenticate_request settings now credentials with
  | Except.error e => Except.error e
  | Except.ok user_data => Except.ok (unified_divide user_data input_data)

/-- Claim C3 (code bug evidence): issuance never returns.  The source
evaluates `datetime.now(timezone.UTC)` and `datetime.timezone` has no
attribute `UTC`, so every call to `create_access_token` raises
`AttributeError` before any token is built — `verify(issue(S, T))`
therefore never succeeds for any subject or ttl.  Under the evident
intended spelling `timezone.utc`, issuance with any strictly positive ttl
T would verify successfully immediately afterwards with subject S, which
is exactly the claimed property. -/
theorem c3_issue_always_crashes (settings : Settings) (now : Int) :
    (∀ (data : TokenData) (expires_delta : Option Int),
      create_access_token data expires_delta settings now =
        Except.error
          "AttributeError: type object datetime.timezone has no attribute UTC") ∧
    (∀ (S : String) (T : Int) (p : Option String) (r : Option (List String)),
      0 < T →
      verify_access_token settings now
        (create_access_token_utc ⟨some S, p, r⟩ (some T) settings now) =
        Except.ok ⟨some S, now + T, p, r⟩) := by
  refine ⟨fun _ _ => rfl, fun S T p r hT => ?_⟩
  have hT0 : T ≠ 0 := by omega
  have hle : ¬now + T ≤ now := by omega
  simp [create_access_token_utc, timedelta_or_default, verify_access_token, hT0, hle]

/-- Witness for C3: at S = "alice", T = 60 seconds the staged issuance
crashes, and the `timezone.utc`-repaired issuance round-trips. -/
theorem c3_issue_always_crashes_witness :
    (create_access_token ⟨some "alice", none, none⟩ (some 60) ⟨"s", 30, []⟩ 0 =
      Except.error
        "AttributeError: type object datetime.timezone has no attribute UTC") ∧
    (verify_access_token ⟨"s", 30, []⟩ 0
      (create_access_token_utc ⟨some "alice", none, none⟩ (some 60) ⟨"s", 30, []⟩ 0) =
      Except.ok ⟨some "alice", 60, none, none⟩) :=
  ⟨(c3_issue_always_crashes ⟨"s", 30, []⟩ 0).1 ⟨some "alice", none, none⟩ (some 60),
    (c3_issue_always_crashes ⟨"s", 30, []⟩ 0).2 "alice" 60 none none (by decide)⟩

/-- Counterexample to claim C4 as stated: at ttl T = 0 nothing is
"rejected with the Expired failure".  The staged `create_access_token`
crashes with the AttributeError before issuing anything, and under the
evident intended `timezone.utc` spelling a zero timedelta is falsy, so
Python substitutes the default 30-minute lifetime and the resulting token
verifies successfully instead of failing as expired. -/
theorem c4_ttl_zero_counterexample :
    create_access_token ⟨some "alice", none, none⟩ (some 0) ⟨"s", 30, []⟩ 0 =
      Except.error
        "AttributeError: type object datetime.timezone has no attribute UTC" ∧
    verify_access_token ⟨"s", 30, []⟩ 0
      (create_access_token_utc ⟨some "alice", none, none⟩ (some 0) ⟨"s", 30, []⟩ 0) =
      Except.ok ⟨some "alice", 1800, none, none⟩ :=
  ⟨rfl, rfl⟩

/-- Claim C4 (amended): token verification enforces both checks on every
token — a payload tampered after signing but unexpired is rejected as
invalid (401 "Invalid token"); any untampered token whose expiry has
passed is rejected with the 401 whose message indicates expiry, both from
`verify_access_token` and through `get_current_oauth_user`; and a
credential verifies only if its signature was produced with the process
secret over exactly the presented payload and its expiry is in the
future.  However no token is ever "issued with ttl T ≤ 0": the staged
issuance always raises the AttributeError, and even under the intended
`timezone.utc` spelling a ttl of exactly 0 is falsy, falls back to the
default lifetime and produces a token that verifies successfully; only a
strictly negative ttl would yield the Expired rejection at issuance
time. -/
theorem c4_verify_both_checks (settings : Settings) (now : Int) :
    (∀ t : JwtToken, t.sigClaims ≠ t.claims → now < t.claims.exp →
      verify_access_token settings now (Cred.jwt t) =
        Except.error ⟨401, "Invalid token"⟩) ∧
    (∀ t : JwtToken, t.sigKey = settings.oauth_secret_key →
      t.sigClaims = t.claims → t.claims.exp ≤ now →
      verify_access_token settings now (Cred.jwt t) =
        Except.error ⟨401, "Token has expired"⟩ ∧
      get_current_oauth_user settings now (some (Cred.jwt t)) =
        Except.error ⟨401, "Token has expired"⟩) ∧
    (∀ (c : Cred) (claims : Claims),
      verify_access_token settings now c = Except.ok claims →
      ∃ t : JwtToken, c = Cred.jwt t ∧ t.claims = claims ∧
        t.sigKey = settings.oauth_secret_key ∧ t.sigClaims = t.claims ∧
        now < claims.exp) ∧
    (∀ (data : TokenData) (expires_delta : Option Int),
      create_access_token data expires_delta settings now =
        Except.error
          "AttributeError: type object datetime.timezone has no attribute UTC") ∧
    (∀ (S : String) (p : Option String) (r : Option (List String)),
      (0 < settings.oauth_access_token_expire_minutes →
        verify_access_token settings now
          (create_access_token_utc ⟨some S, p, r⟩ (some 0) settings now) =
          Except.ok
            ⟨some S, now + settings.oauth_access_token_expire_minutes * 60, p, r⟩) ∧
      (∀ T : Int, T < 0 →
        verify_access_token settings now
          (create_access_token_utc ⟨some S, p, r⟩ (some T) settings now) =
          Except.error ⟨401, "Token has expired"⟩)) := by
  refine ⟨fun t hTamper _hLive => ?_, fun t hKey hSig hExp => ?_,
    fun c claims hOk => ?_, fun _ _ => rfl,
    fun S p r => ⟨fun hMin => ?_, fun T hT => ?_⟩⟩
  · simp only [verify_access_token]
    rw [if_neg (by intro h; exact hTamper h.2)]
  · have hVerify : verify_access_token settings now (Cred.jwt t) =
        Except.error ⟨401, "Token has expired"⟩ := by
      rw [verify_access_token, if_pos ⟨hKey, hSig⟩, if_pos hExp]
    exact ⟨hVerify, by simp only [get_current_oauth_user, hVerify]⟩
  · cases c with
    | raw s => exact absurd hOk (by simp [verify_access_token])
    | jwt t =>
      refine ⟨t, rfl, ?_⟩
      by_cases hSig : t.sigKey = settings.oauth_secret_key ∧ t.sigClaims = t.claims
      · by_cases hExp : t.claims.exp ≤ now
        · rw [verify_access_token, if_pos hSig, if_pos hExp] at hOk
          exact absurd hOk (by simp)
        · rw [verify_access_token, if_pos hSig, if_neg hExp] at hOk
          cases hOk
          exact ⟨rfl, hSig.1, hSig.2, by omega⟩
      · rw [verify_access_token, if_neg hSig] at hOk
        exact absurd hOk (by simp)
  · have hle : ¬now + settings.oauth_access_token_expire_minutes * 60 ≤ now := by
      omega
    simp [create_access_token_utc, timedelta_or_default, verify_access_token, hle]
  · have hT0 : T ≠ 0 := by omega
    have hle : now + T ≤ now := by omega
    simp [create_access_token_utc, timedelta_or_default, verify_access_token, hT0,
      hle]

/-- Witness for C4: a payload tampered after signing on an unexpired token
is rejected as invalid; an untampered token with a past expiry is rejected
as expired; and under the repaired issuance a strictly negative ttl yields
the expired rejection. -/
theorem c4_verify_both_checks_witness :
    (verify_access_token ⟨"s", 30, []⟩ 0
      (Cred.jwt ⟨⟨some "a", 5, none, none⟩, "s", ⟨some "b", 5, none, none⟩⟩) =
      Except.error ⟨401, "Invalid token"⟩) ∧
    (verify_access_token ⟨"s", 30, []⟩ 10
      (Cred.jwt ⟨⟨some "a", 5, none, none⟩, "s", ⟨some "a", 5, none, none⟩⟩) =
      Except.error ⟨401, "Token has expired"⟩) ∧
    (verify_access_token ⟨"s", 30, []⟩ 0
      (create_access_token_utc ⟨some "alice", none, none⟩ (some (-60))
        ⟨"s", 30, []⟩ 0) =
      Except.error ⟨401, "Token has expired"⟩) :=
  ⟨(c4_verify_both_checks ⟨"s", 30, []⟩ 0).1
      ⟨⟨some "a", 5, none, none⟩, "s", ⟨some "b", 5, none, none⟩⟩
      (by decide) (by decide),
    ((c4_verify_both_checks ⟨"s", 30, []⟩ 10).2.1
      ⟨⟨some "a", 5, none, none⟩, "s", ⟨some "a", 5, none, none⟩⟩
      rfl rfl (by decide)).1,
    ((c4_verify_both_checks ⟨"s", 30, []⟩ 0).2.2.2.2 "alice" none none).2
      (-60) (by decide)⟩

/-- Claim C2: the Role Gate allows when the required role set is empty or
absent; always allows identities with auth kind oauth, whatever the
required roles; and otherwise, for api_key identities and a non-empty
required set, allows exactly when the identity's roles intersect the
required roles, failing with a 403 otherwise. -/
theorem c2_check_role (u : UserData) :
    (check_role none (some u) = Except.ok () ∧
      check_role (some []) (some u) = Except.ok ()) ∧
    (∀ required_roles : Option (List String), u.auth_type = "oauth" →
      check_role required_roles (some u) = Except.ok ()) ∧
    (∀ rs : List String, u.auth_type = "api_key" → rs ≠ [] →
      ((∃ r, r ∈ rs ∧ r ∈ u.roles.getD []) →
        check_role (some rs) (some u) = Except.ok ()) ∧
      (¬ (∃ r, r ∈ rs ∧ r ∈ u.roles.getD []) →
        check_role (some rs) (some u) =
          Except.error ⟨403, "Insufficient permissions"⟩)) := by
  refine ⟨⟨?_, ?_⟩, fun required hOauth => ?_,
    fun rs hApi hne => ⟨fun hInter => ?_, fun hNo => ?_⟩⟩
  · by_cases h : u.auth_type = "oauth" <;> simp [check_role, h]
  · by_cases h : u.auth_type = "oauth" <;> simp [check_role, h]
  · cases required <;> simp [check_role, hOauth]
  · obtain ⟨r, hr, hmem⟩ := hInter
    simp only [check_role, hApi]
    rw [if_neg (by decide), if_neg (by simpa using hne),
      if_pos (by simp only [List.any_eq_true]; exact ⟨r, hr, by simpa using hmem⟩)]
  · have hAny : ¬rs.any (fun role => (u.roles.getD []).contains role) = true := by
      simp only [List.any_eq_true]
      rintro ⟨r, hr, hmem⟩
      exact hNo ⟨r, hr, by simpa using hmem⟩
    simp only [check_role, hApi]
    rw [if_neg (by decide), if_neg (by simpa using hne), if_neg hAny]

/-- Witness for C2 at an api_key identity with roles ["user","admin"] and
required roles ["admin"]. -/
theorem c2_check_role_witness :
    check_role (some ["admin"])
      (some ⟨some "alice", "api_key", none, some ["user", "admin"]⟩) =
      Except.ok () :=
  ((c2_check_role ⟨some "alice", "api_key", none, some ["user", "admin"]⟩).2.2
    ["admin"] rfl (by decide)).1 ⟨"admin", by decide, by decide⟩

/-- Helper: `verify_access_token` reads only the process secret from the
settings, so swapping the API-key store leaves it unchanged. -/
theorem verify_access_token_api_keys_irrel (settings : Settings)
    (keys : List (Cred × UserEntry)) (now : Int) (c : Cred) :
    verify_access_token { settings with api_keys := keys } now c =
      verify_access_token settings now c := by
  cases c <;> rfl

/-- Claim C1: for every bearer credential, `authenticate_request` attempts
token verification first — when verification succeeds with a truthy
subject, the OAuth identity is returned whatever the API-key store
contains; only when the token attempt fails is the same raw credential
looked up in the store, yielding an api_key identity with the stored roles
when found; and when both attempts fail the request is rejected with the
one fixed generic 401, identical whatever the verification failure was. -/
theorem c1_authenticate_request_order (settings : Settings) (now : Int)
    (creds : HTTPAuthorizationCredentials)
    (hScheme : str_lower creds.scheme = "bearer") :
    (∀ (payload : Claims) (s : String),
      verify_access_token settings now creds.credentials = Except.ok payload →
      payload.sub = some s → s ≠ "" →
      ∀ keys : List (Cred × UserEntry),
        authenticate_request { settings with api_keys := keys } now (some creds) =
          Except.ok ⟨some s, "oauth", some (payload.provider.getD "unknown"), none⟩) ∧
    (∀ e : HTTPError,
      verify_access_token settings now creds.credentials = Except.error e →
      (∀ entry : UserEntry,
        dictGet settings.api_keys creds.credentials = some entry →
        authenticate_request settings now (some creds) =
          Except.ok ⟨entry.username, "api_key", none, some (entry.roles.getD [])⟩) ∧
      (dictGet settings.api_keys creds.credentials = none →
        authenticate_request settings now (some creds) =
          Except.error ⟨401, "Invalid authentication credentials"⟩)) := by
  constructor
  · intro payload s hV hSub hs keys
    have hV2 : verify_access_token { settings with api_keys := keys } now
        creds.credentials = Except.ok payload :=
      (verify_access_token_api_keys_irrel settings keys now creds.credentials).trans hV
    simp only [authenticate_request, hScheme, ne_eq, hV2, hSub, if_neg hs]
    simp
  · intro e hE
    constructor
    · intro entry hLookup
      simp only [authenticate_request, hScheme, ne_eq, hE, hLookup]
      simp
    · intro hLookup
      simp only [authenticate_request, hScheme, ne_eq, hE, hLookup]
      simp

/-- Witness for C1: a store holding the key "key1"; a valid token for
"alice" authenticates as oauth even with that store, the raw key "key1"
authenticates as api_key with the stored roles, and an unknown raw string
is rejected with the generic 401. -/
theorem c1_authenticate_request_order_witness :
    (authenticate_request ⟨"s", 30, [(Cred.raw "key1", ⟨some "bob", some ["user"]⟩)]⟩ 0
      (some ⟨"Bearer", Cred.jwt ⟨⟨some "alice", 100, none, none⟩, "s",
        ⟨some "alice", 100, none, none⟩⟩⟩) =
      Except.ok ⟨some "alice", "oauth", some "unknown", none⟩) ∧
    (authenticate_request ⟨"s", 30, [(Cred.raw "key1", ⟨some "bob", some ["user"]⟩)]⟩ 0
      (some ⟨"Bearer", Cred.raw "key1"⟩) =
      Except.ok ⟨some "bob", "api_key", none, some ["user"]⟩) ∧
    (authenticate_request ⟨"s", 30, [(Cred.raw "key1", ⟨some "bob", some ["user"]⟩)]⟩ 0
      (some ⟨"Bearer", Cred.raw "other"⟩) =
      Except.error ⟨401, "Invalid authentication credentials"⟩) :=
  ⟨(c1_authenticate_request_order
      ⟨"s", 30, [(Cred.raw "key1", ⟨some "bob", some ["user"]⟩)]⟩ 0
      ⟨"Bearer", Cred.jwt ⟨⟨some "alice", 100, none, none⟩, "s",
        ⟨some "alice", 100, none, none⟩⟩⟩ (by decide)).1
      ⟨some "alice", 100, none, none⟩ "alice" rfl rfl (by decide)
      [(Cred.raw "key1", ⟨some "bob", some ["user"]⟩)],
    ((c1_authenticate_request_order
      ⟨"s", 30, [(Cred.raw "key1", ⟨some "bob", some ["user"]⟩)]⟩ 0
      ⟨"Bearer", Cred.raw "key1"⟩ (by decide)).2
      ⟨401, "Invalid token"⟩ rfl).1 ⟨some "bob", some ["user"]⟩ rfl,
    ((c1_authenticate_request_order
      ⟨"s", 30, [(Cred.raw "key1", ⟨some "bob", some ["user"]⟩)]⟩ 0
      ⟨"Bearer", Cred.raw "other"⟩ (by decide)).2
      ⟨401, "Invalid token"⟩ rfl).2 rfl⟩

/-- Counterexample to claim C5: a token accepted by verification whose
claims carry roles ["admin"] yields an identity record whose roles field is
absent — the record the claim calls for (roles copied from the claims) is
not the record the code produces. -/
theorem c5_roles_not_copied_counterexample :
    authenticate_request ⟨"s", 30, []⟩ 0
      (some ⟨"bearer", Cred.jwt ⟨⟨some "alice", 100, some "google", some ["admin"]⟩, "s",
        ⟨some "alice", 100, some "google", some ["admin"]⟩⟩⟩) =
      Except.ok ⟨some "alice", "oauth", some "google", none⟩ ∧
    (⟨some "alice", "oauth", some "google", none⟩ : UserData) ≠
      ⟨some "alice", "oauth", some "google", some ["admin"]⟩ :=
  ⟨rfl, by decide⟩

/-- Claim C5 (amended): for every bearer credential that token verification
accepts with a truthy subject, the resolver's identity record has auth
kind oauth and provider from the claims with default "unknown", but its
roles field is always absent (effectively empty) — the token's roles
claims are never copied into the record; `get_current_oauth_user` builds
the same record. -/
theorem c5_oauth_record_shape (settings : Settings) (now : Int)
    (creds : HTTPAuthorizationCredentials) (payload : Claims) (s : String)
    (hScheme : str_lower creds.scheme = "bearer")
    (hV : verify_access_token settings now creds.credentials = Except.ok payload)
    (hSub : payload.sub = some s) (hs : s ≠ "") :
    authenticate_request settings now (some creds) =
      Except.ok ⟨some s, "oauth", some (payload.provider.getD "unknown"), none⟩ ∧
    get_current_oauth_user settings now (some creds.credentials) =
      Except.ok ⟨some s, "oauth", some (payload.provider.getD "unknown"), none⟩ := by
  constructor
  · simp only [authenticate_request, hScheme, ne_eq, hV, hSub, if_neg hs]
    simp
  · simp only [get_current_oauth_user, hV, hSub]

/-- Witness for C5 (amended) on a token carrying roles ["admin"] and
provider "google". -/
theorem c5_oauth_record_shape_witness :
    authenticate_request ⟨"s", 30, []⟩ 0
      (some ⟨"bearer", Cred.jwt ⟨⟨some "bob", 100, some "google", some ["admin"]⟩, "s",
        ⟨some "bob", 100, some "google", some ["admin"]⟩⟩⟩) =
      Except.ok ⟨some "bob", "oauth", some "google", none⟩ :=
  (c5_oauth_record_shape ⟨"s", 30, []⟩ 0
    ⟨"bearer", Cred.jwt ⟨⟨some "bob", 100, some "google", some ["admin"]⟩, "s",
      ⟨some "bob", 100, some "google", some ["admin"]⟩⟩⟩
    ⟨some "bob", 100, some "google", some ["admin"]⟩ "bob"
    rfl rfl rfl (by decide)).1

/-- Helper: the key list of a dict after one insertion — unchanged when the
key was already bound, extended by the key otherwise. -/
theorem dictInsert_map_fst {α β : Type} [DecidableEq α]
    (d : List (α × β)) (k : α) (v : β) :
    (dictInsert d k v).map Prod.fst =
      if d.any (fun p => p.1 = k) then d.map Prod.fst
      else d.map Prod.fst ++ [k] := by
  unfold dictInsert
  split
  case isTrue h =>
    rw [List.map_map]
    congr 1
    funext p
    by_cases hp : p.1 = k
    · simp [Function.comp, hp]
    · simp [Function.comp, hp]
  case isFalse h =>
    simp

/-- Helper: insertion into a dict with pairwise-distinct keys keeps the
keys pairwise distinct. -/
theorem dictInsert_keys_nodup {α β : Type} [DecidableEq α]
    (d : List (α × β)) (k : α) (v : β)
    (h : (d.map Prod.fst).Nodup) : ((dictInsert d k v).map Prod.fst).Nodup := by
  rw [dictInsert_map_fst]
  split
  case isTrue _ => exact h
  case isFalse hAny =>
    have hk : k ∉ d.map Prod.fst := by
      simp only [List.any_eq_true, decide_eq_true_eq] at hAny
      simp only [List.mem_map]
      rintro ⟨p, hp, rfl⟩
      exact hAny ⟨p, hp, rfl⟩
    rw [List.nodup_append]
    refine ⟨h, List.nodup_singleton k, ?_⟩
    intro x hx hx1
    rw [List.mem_singleton] at hx1
    exact hk (hx1 ▸ hx)

/-- Helper: the dict built by `json_loads` always has pairwise-distinct
keys, whatever duplicates the JSON input contained. -/
theorem json_loads_keys_nodup {β : Type} (pairs : List (String × β)) :
    ((json_loads pairs).map Prod.fst).Nodup := by
  suffices h : ∀ d : List (String × β), (d.map Prod.fst).Nodup →
      ((pairs.foldl (fun d p => dictInsert d p.1 p.2) d).map Prod.fst).Nodup from
    h [] (by simp)
  induction pairs with
  | nil => intro d hd; simpa using hd
  | cons p rest ih =>
    intro d hd
    exact ih _ (dictInsert_keys_nodup d p.1 p.2 hd)

/-- Claim C6 (code bug evidence): a configuration input with the key "k1"
duplicated does not fail validation — `json.loads` silently collapses the
duplicate, keeping the last value, and the key-uniqueness check compares a
dict's keys with themselves, so `ensure_unique_values` accepts every input
and can never raise. -/
theorem c6_duplicate_keys_accepted :
    ensure_unique_values
      [("k1", ⟨some "alice", some ["admin"]⟩), ("k1", ⟨some "bob", some ["user"]⟩)] =
      Except.ok [("k1", ⟨some "bob", some ["user"]⟩)] ∧
    ∀ raw : List (String × UserEntry), ∃ d, ensure_unique_values raw = Except.ok d := by
  constructor
  · rfl
  · intro raw
    refine ⟨json_loads raw, ?_⟩
    unfold ensure_unique_values
    rw [if_neg ?_]
    intro hne
    exact hne (by rw [List.dedup_eq_self.mpr (json_loads_keys_nodup raw)])

/-- Claim C7: on an authenticated request with B = 0, the production divide
endpoint answers with a 500 whose detail names the division by zero, and
the unified divide handler raises the same `ValueError` uncaught (the
framework surfaces an unhandled exception as a server error); for B ≠ 0
both return A / B; and `divide_numbers` raises exactly when its second
argument is zero. -/
theorem c7_divide_by_zero (u : UserData) (a b : ℚ) :
    production_divide u ⟨a, 0⟩ = Except.error ⟨500, "Cannot divide by zero"⟩ ∧
    unified_divide u ⟨a, 0⟩ = Except.error "Cannot divide by zero" ∧
    (b ≠ 0 →
      production_divide u ⟨a, b⟩ = Except.ok ⟨"divide", a, b, a / b⟩ ∧
      unified_divide u ⟨a, b⟩ =
        Except.ok ⟨"divide", a, b, a / b, u.sub, u.auth_type⟩) ∧
    ((∃ e, divide_numbers a b = Except.error e) ↔ b = 0) := by
  refine ⟨by simp [production_divide, divide_numbers], by simp [unified_divide, divide_numbers],
    fun hb => ⟨by simp [production_divide, divide_numbers, hb],
      by simp [unified_divide, divide_numbers, hb]⟩, ?_, ?_⟩
  · rintro ⟨e, he⟩
    by_contra hb
    simp [divide_numbers, hb] at he
  · intro hb
    exact ⟨"Cannot divide by zero", by simp [divide_numbers, hb]⟩

/-- Witness for C7 at body A = 10, B = 0 (500 with the division-by-zero
detail) and A = 10, B = 5 (result 2). -/
theorem c7_divide_by_zero_witness :
    production_divide ⟨some "alice", "api_key", none, some ["admin"]⟩ ⟨10, 0⟩ =
      Except.error ⟨500, "Cannot divide by zero"⟩ ∧
    production_divide ⟨some "alice", "api_key", none, some ["admin"]⟩ ⟨10, 5⟩ =
      Except.ok ⟨"divide", 10, 5, 2⟩ := by
  have h := c7_divide_by_zero ⟨some "alice", "api_key", none, some ["admin"]⟩ 10 5
  refine ⟨h.1, ?_⟩
  have h2 := (h.2.2.1 (by norm_num)).1
  norm_num at h2
  exact h2

/-- Claim C9: on the admin-gated add endpoint, a bearer API key whose
stored roles include admin with body A = 10, B = 5 yields success with
result 15, while a valid key whose stored roles are only ["user"] yields
the 403. -/
theorem c9_admin_gated_add (api_keys : List (Cred × UserEntry)) (now : Int)
    (scheme : String) (c : Cred) (entry : UserEntry)
    (hScheme : str_lower scheme = "bearer")
    (hLookup : dictGet api_keys c = some entry) :
    ("admin" ∈ entry.roles.getD [] →
      production_add_endpoint api_keys now (some ⟨scheme, c⟩) ⟨10, 5⟩ =
        Except.ok ⟨"add", 10, 5, 15⟩) ∧
    (entry.roles.getD [] = ["user"] →
      production_add_endpoint api_keys now (some ⟨scheme, c⟩) ⟨10, 5⟩ =
        Except.error ⟨403, "User does not have required role"⟩) := by
  constructor
  · intro hAdmin
    have hAuth : bearer_auth api_keys (some ["admin"]) (some ⟨scheme, c⟩) =
        Except.ok ⟨entry.username, "api_key", none, some (entry.roles.getD [])⟩ := by
      simp only [bearer_auth, hScheme, ne_eq, hLookup]
      simp [hAdmin]
    simp only [production_add_endpoint, hAuth, production_add, add_numbers]
    norm_num
  · intro hUser
    have hAuth : bearer_auth api_keys (some ["admin"]) (some ⟨scheme, c⟩) =
        Except.error ⟨403, "User does not have required role"⟩ := by
      simp only [bearer_auth, hScheme, ne_eq, hLookup]
      simp [hUser]
    simp only [production_add_endpoint, hAuth]

/-- Witness for C9: a store with an admin key and a user-only key. -/
theorem c9_admin_gated_add_witness :
    production_add_endpoint
      [(Cred.raw "adminkey", ⟨some "alice", some ["admin"]⟩),
        (Cred.raw "userkey", ⟨some "bob", some ["user"]⟩)] 0
      (some ⟨"Bearer", Cred.raw "adminkey"⟩) ⟨10, 5⟩ =
      Except.ok ⟨"add", 10, 5, 15⟩ ∧
    production_add_endpoint
      [(Cred.raw "adminkey", ⟨some "alice", some ["admin"]⟩),
        (Cred.raw "userkey", ⟨some "bob", some ["user"]⟩)] 0
      (some ⟨"Bearer", Cred.raw "userkey"⟩) ⟨10, 5⟩ =
      Except.error ⟨403, "User does not have required role"⟩ :=
  ⟨(c9_admin_gated_add
      [(Cred.raw "adminkey", ⟨some "alice", some ["admin"]⟩),
        (Cred.raw "userkey", ⟨some "bob", some ["user"]⟩)]
      0 "Bearer" (Cred.raw "adminkey")
      ⟨some "alice", some ["admin"]⟩ (by decide) rfl).1 (by decide),
    (c9_admin_gated_add
      [(Cred.raw "adminkey", ⟨some "alice", some ["admin"]⟩),
        (Cred.raw "userkey", ⟨some "bob", some ["user"]⟩)]
      0 "Bearer" (Cred.raw "userkey")
      ⟨some "bob", some ["user"]⟩ (by decide) rfl).2 rfl⟩

/-- Claim C10: the unified endpoints are mounted with `authenticate_request`
as their only security dependency and apply no role restriction: every API
key present in the store — whatever its role list, including the empty
one — authenticates as an api_key identity and reaches all four unified
math handlers. -/
theorem c10_unified_no_role_gate (settings : Settings) (now : Int)
    (scheme key : String) (entry : UserEntry) (input : InputData)
    (hScheme : str_lower scheme = "bearer")
    (hLookup : dictGet settings.api_keys (Cred.raw key) = some entry) :
    authenticate_request settings now (some ⟨scheme, Cred.raw key⟩) =
      Except.ok ⟨entry.username, "api_key", none, some (entry.roles.getD [])⟩ ∧
    unified_add_endpoint settings now (some ⟨scheme, Cred.raw key⟩) input =
      Except.ok ⟨"add", input.A, input.B, input.A + input.B,
        entry.username, "api_key"⟩ ∧
    unified_subtract_endpoint settings now (some ⟨scheme, Cred.raw key⟩) input =
      Except.ok ⟨"subtract", input.A, input.B, input.A - input.B,
        entry.username, "api_key"⟩ ∧
    unified_multiply_endpoint settings now (some ⟨scheme, Cred.raw key⟩) input =
      Except.ok ⟨"multiply", input.A, input.B, input.A * input.B,
        entry.username, "api_key"⟩ ∧
    unified_divide_endpoint settings now (some ⟨scheme, Cred.raw key⟩) input =
      Except.ok (unified_divide
        ⟨entry.username, "api_key", none, some (entry.roles.getD [])⟩ input) := by
  have hAuth : authenticate_request settings now (some ⟨scheme, Cred.raw key⟩) =
      Except.ok ⟨entry.username, "api_key", none, some (entry.roles.getD [])⟩ := by
    simp only [authenticate_request, hScheme, ne_eq, verify_access_token, hLookup]
    simp
  exact ⟨hAuth,
    by simp [unified_add_endpoint, hAuth, unified_add, add_numbers],
    by simp [unified_subtract_endpoint, hAuth, unified_subtract, subtract_numbers],
    by simp [unified_multiply_endpoint, hAuth, unified_multiply, multiply_numbers],
    by simp [unified_divide_endpoint, hAuth]⟩

/-- Witness for C10 on a store whose only key carries an empty role list. -/
theorem c10_unified_no_role_gate_witness :
    authenticate_request ⟨"s", 30, [(Cred.raw "k", ⟨some "carol", some []⟩)]⟩ 0
      (some ⟨"Bearer", Cred.raw "k"⟩) =
      Except.ok ⟨some "carol", "api_key", none, some []⟩ ∧
    unified_add_endpoint ⟨"s", 30, [(Cred.raw "k", ⟨some "carol", some []⟩)]⟩ 0
      (some ⟨"Bearer", Cred.raw "k"⟩) ⟨10, 5⟩ =
      Except.ok ⟨"add", 10, 5, 15, some "carol", "api_key"⟩ := by
  have h := c10_unified_no_role_gate ⟨"s", 30, [(Cred.raw "k", ⟨some "carol", some []⟩)]⟩
    0 "Bearer" "k" ⟨some "carol", some []⟩ ⟨10, 5⟩ (by decide) rfl
  refine ⟨h.1, ?_⟩
  have h2 := h.2.1
  norm_num at h2
  exact h2

/-- Helper: a successful dict lookup pins an element of the underlying
association list. -/
theorem dictGet_mem {α β : Type} [DecidableEq α] {d : List (α × β)} {k : α} {v : β}
    (h : dictGet d k = some v) : (k, v) ∈ d := by
  induction d with
  | nil => exact absurd h (by simp [dictGet])
  | cons p rest ih =>
    obtain ⟨k1, v1⟩ := p
    rw [dictGet] at h
    split at h
    case isTrue hk =>
      cases h
      exact hk ▸ List.mem_cons_self _ _
    case isFalse hk =>
      exact List.mem_cons_of_mem _ (ih h)

/-- Counterexample to claim C8: the credential store is never validated, so
an entry without a username authenticates successfully and yields an
identity record whose subject is absent. -/
theorem c8_empty_subject_counterexample :
    authenticate_request ⟨"s", 30, [(Cred.raw "k", ⟨none, some []⟩)]⟩ 0
      (some ⟨"bearer", Cred.raw "k"⟩) =
      Except.ok ⟨none, "api_key", none, some []⟩ := rfl

/-- Claim C8 (amended): provided every credential-store entry carries a
non-empty username, every identity record produced by a successful
`authenticate_request` or `bearer_auth` has a present, non-empty subject
(the OAuth path of `authenticate_request` needs no store assumption: its
truthiness guard already excludes an empty subject). -/
theorem c8_subject_nonempty (settings : Settings) (now : Int)
    (credentials : Option HTTPAuthorizationCredentials) (u : UserData)
    (hStore : ∀ p ∈ settings.api_keys, p.2.username.getD "" ≠ "") :
    (authenticate_request settings now credentials = Except.ok u →
      u.sub.getD "" ≠ "") ∧
    (∀ allowed_roles : Option (List String),
      bearer_auth settings.api_keys allowed_roles credentials = Except.ok u →
      u.sub.getD "" ≠ "") := by
  constructor
  · intro h
    cases credentials with
    | none => exact absurd h (by simp [authenticate_request])
    | some creds =>
      simp only [authenticate_request] at h
      split at h
      · exact absurd h (by simp)
      · split at h
        case h_1 user_data hAttempt =>
          cases h
          split at hAttempt
          case h_1 payload hV =>
            split at hAttempt
            case h_1 user_email hSub =>
              split at hAttempt
              · exact absurd hAttempt (by simp)
              case isFalse hne =>
                cases hAttempt
                simpa using hne
            case h_2 => exact absurd hAttempt (by simp)
          case h_2 => exact absurd hAttempt (by simp)
        case h_2 hAttempt =>
          split at h
          case h_1 user_info hLookup =>
            cases h
            exact hStore _ (dictGet_mem hLookup)
          case h_2 => exact absurd h (by simp)
  · intro allowed_roles h
    cases credentials with
    | none => exact absurd h (by simp [bearer_auth])
    | some creds =>
      simp only [bearer_auth] at h
      split at h
      · exact absurd h (by simp)
      · split at h
        case h_1 => exact absurd h (by simp)
        case h_2 user_info hLookup =>
          split at h
          · exact absurd h (by simp)
          · cases h
            exact hStore _ (dictGet_mem hLookup)

/-- Witness for C8 (amended): a well-formed store entry yields the
non-empty subject "bob". -/
theorem c8_subject_nonempty_witness :
    (⟨some "bob", "api_key", none, some ["user"]⟩ : UserData).sub.getD "" ≠ "" :=
  (c8_subject_nonempty ⟨"s", 30, [(Cred.raw "k", ⟨some "bob", some ["user"]⟩)]⟩ 0
    (some ⟨"bearer", Cred.raw "k"⟩) ⟨some "bob", "api_key", none, some ["user"]⟩
    (by decide)).1 rfl

end FastapiExample
